import Mathlib

/-!
A shallow embedding of the entity-resolution engine of `trakt_api.py`
(EPG-to-Trakt): the movie/episode classifier, the onscreen-code parser,
the episode and movie lookup functions and the episode fallback chain,
together with proofs about the specified properties.

Modelling conventions:
* Python strings are Lean `String`s; character-level work goes through
  `String.data` (a `List Char`).
* `int(s)` is `pyInt` (surrounding whitespace, one optional sign, digits
  with single underscores between digits; `none` is a `ValueError`).
* `str.split(sep)` is `splitOnChar`, `str.strip()` is `pyStrip`,
  `str.lower()` maps `Char.toLower` (ASCII).
* The remote Trakt catalog is a `Catalog` of pure response functions; an
  HTTP 404 from the episode-summary endpoint is `none` from
  `Catalog.getEpisode`.
* The fuzzy matcher `process.extractOne(q, [c])[1]` is an arbitrary
  scoring function `fz : String → String → Nat`; the code compares its
  value on lowercased arguments against the fixed threshold 90.
* Diagnostics (`print` calls) are collected in returned `List String`s.
-/

/-- Characters `str.strip()` treats as whitespace (ASCII range). -/
def pySpace (c : Char) : Bool :=
  c == ' ' || c == '\t' || c == '\n' || c == '\r' || c == '\x0b' || c == '\x0c'

/-- Python `str.strip()` on a character list. -/
def pyStrip (l : List Char) : List Char :=
  ((l.dropWhile pySpace).reverse.dropWhile pySpace).reverse

/-- Python `str.split(sep)` with an explicit one-character separator:
keeps empty parts, and `"".split(sep) == [""]`. -/
def splitOnChar (sep : Char) : List Char → List (List Char)
  | [] => [[]]
  | c :: rest =>
    if c = sep then
      [] :: splitOnChar sep rest
    else
      match splitOnChar sep rest with
      | [] => [[c]]
      | h :: t => (c :: h) :: t

/-- Digit run of `int()`: decimal digits with single underscores allowed
strictly between digits; `acc` is the value read so far. -/
def pyDigitsGo (acc : Nat) : List Char → Option Nat
  | [] => some acc
  | c :: rest =>
    if c.isDigit then pyDigitsGo (10 * acc + (c.toNat - 48)) rest
    else if c = '_' then
      match rest with
      | [] => none
      | d :: rest2 =>
        if d.isDigit then pyDigitsGo (10 * acc + (d.toNat - 48)) rest2 else none
    else none

/-- Nonempty digit run of `int()`: must start with a digit. -/
def pyDigits : List Char → Option Nat
  | [] => none
  | c :: rest => if c.isDigit then pyDigitsGo (c.toNat - 48) rest else none

/-- Python `int(s)`: optional surrounding whitespace, one optional sign,
then a digit run. `none` models a raised `ValueError`. -/
def pyInt (l : List Char) : Option Int :=
  match pyStrip l with
  | [] => none
  | c :: rest =>
    if c = '+' then (pyDigits rest).map Int.ofNat
    else if c = '-' then (pyDigits rest).map fun n => -Int.ofNat n
    else (pyDigits (c :: rest)).map Int.ofNat

/-- `int(s)` on a `String`. -/
def pyIntS (s : String) : Option Int := pyInt s.data

/-- Python `str.lower()` (ASCII). -/
def lowerS (s : String) : String := ⟨s.data.map Char.toLower⟩

/-- A season/episode pair parsed from an onscreen code. Python `int()` can
return negative values, so the fields are integers. -/
structure SeasonEpisode where
  season : Int
  episode : Int
deriving DecidableEq, Repr

/-- One show as the catalog search returns it: its title and its opaque
Trakt identifier. -/
structure ShowInfo where
  title : String
  id : Nat
deriving DecidableEq, Repr

/-- One episode as the catalog returns it: its title and its opaque ids
record (what `episode["ids"]` denotes). -/
structure EpisodeInfo where
  title : String
  ids : Nat
deriving DecidableEq, Repr

/-- One movie candidate as the catalog movie search returns it. -/
structure MovieInfo where
  title : String
  year : Int
  ids : Nat
deriving DecidableEq, Repr

/-- The remote catalog (Trakt API) as pure response functions. A `none`
from `getEpisode` is the HTTP 404 the code checks for explicitly. -/
structure Catalog where
  searchShows : String → List ShowInfo
  searchMovies : String → List MovieInfo
  listSeasons : Nat → List Int
  listEpisodes : Nat → Int → List EpisodeInfo
  getEpisode : Nat → Int → Int → Option EpisodeInfo

/-- One entry of a guide record's `episodeNum`/`episodenum` list:
`{system, value}` with absent values read as `""`. -/
structure EpisodeCode where
  system : String
  value : String
deriving DecidableEq, Repr

/-- A guide record as `is_movie` reads it: the entries under the two
accepted key spellings (an absent key is the empty list). -/
structure Program where
  episodeNum : List EpisodeCode
  episodenum : List EpisodeCode
deriving DecidableEq, Repr

/-- The movie test `value[:2].lower() == "mv"`: Python slicing truncates,
so a value shorter than two characters just yields a short slice. -/
def startsMv (v : String) : Bool :=
  (v.data.take 2).map Char.toLower == ['m', 'v']

/-- `is_movie(program)` of `trakt_api.py`: scan the entries under
`episodeNum` then `episodenum` for a `dd_progid` entry whose value starts,
case-insensitively, with `mv`; default to `False` (Episode). -/
def is_movie (program : Program) : Bool :=
  (program.episodeNum ++ program.episodenum).any fun e =>
    e.system == "dd_progid" && startsMv e.value

/-- The onscreen-code parse inside `search_episode_by_onscreen_value`:
`season_number, episode_number = map(int, onscreen_value[1:].split('E'))`.
The first character is stripped unconditionally, the rest is split on the
literal `E`, and the parse succeeds exactly when that yields two
`int()`-parseable parts; `none` is the `ValueError` the code catches. -/
def parseOnscreen (onscreen_value : String) : Option SeasonEpisode :=
  match splitOnChar 'E' (onscreen_value.data.drop 1) with
  | [a, b] =>
    match pyInt a, pyInt b with
    | some s, some e => some ⟨s, e⟩
    | _, _ => none
  | _ => none

/-- Diagnostic helper: a value wrapped in single quotes, as the f-strings
of the source print it. -/
def quoted (s : String) : String := "\x27" ++ s ++ "\x27"

/-- Message printed by `get_first_show_id` when the search is empty. -/
def noShowMsg (show_title : String) : String :=
  "Error: No show found with title " ++ quoted show_title ++ "."

/-- Message printed by `search_episode_by_onscreen_value` on `ValueError`. -/
def invalidOnscreenMsg (onscreen_value : String) : String :=
  "Error: Invalid onscreen value " ++ quoted onscreen_value ++ "."

/-- Message printed when an onscreen lookup and the title fallback fail. -/
def onscreenNotFoundMsg (onscreen_value show_title : String) : String :=
  quoted onscreen_value ++ " in " ++ quoted show_title ++ " not found"

/-- Message printed when a title lookup finds no Trakt ID. -/
def failedTitleMsg (episode_title show_title : String) : String :=
  "Failed to find Trakt ID for " ++ quoted episode_title ++ " in " ++
    quoted show_title

/-- Message printed when the required fields are missing. -/
def emptyFieldsMsg (show_title : String) : String :=
  "Empty subtitle or onscreen_value for program: " ++ quoted show_title

/-- `get_first_show_id` of `trakt_api.py`: the Trakt id of the first show
the catalog search returns, with the printed diagnostics. -/
def get_first_show_id (cat : Catalog) (show_title : String) :
    Option Nat × List String :=
  match cat.searchShows show_title with
  | [] => (none, [noShowMsg show_title])
  | s :: _ => (some s.id, [])

/-- `search_episode_by_onscreen_value` of `trakt_api.py`: parse the
onscreen code, take the first show the search returns, fetch that
season/episode; a 404 returns `None` (treated as no match, not an error). -/
def search_episode_by_onscreen_value (cat : Catalog)
    (show_title onscreen_value : String) : Option EpisodeInfo × List String :=
  match parseOnscreen onscreen_value with
  | none => (none, [invalidOnscreenMsg onscreen_value])
  | some se =>
    match get_first_show_id cat show_title with
    | (none, logs) => (none, logs)
    | (some show_id, logs) =>
      match cat.getEpisode show_id se.season se.episode with
      | none => (none, logs)
      | some ep => (some ep, logs)

/-- `search_episode_by_title` of `trakt_api.py`: over the catalog's show
search results in order, a show is accepted when its lowercased title
scores strictly above 90 against the lowercased query; for an accepted
show its seasons are walked in catalog-returned order and each season's
episodes in catalog-returned order, and the first episode whose lowercased
title scores strictly above 90 against the lowercased episode title is
returned; with no such episode the next search result is tried. -/
def search_episode_by_title (cat : Catalog) (fz : String → String → Nat)
    (show_title episode_title : String) : Option EpisodeInfo :=
  (cat.searchShows show_title).findSome? fun sh =>
    if 90 < fz (lowerS show_title) (lowerS sh.title) then
      (cat.listSeasons sh.id).findSome? fun season_number =>
        (cat.listEpisodes sh.id season_number).find? fun ep =>
          decide (90 < fz (lowerS episode_title) (lowerS ep.title))
    else none

/-- The `for movie in movie_data` loop of `search_movie_by_title_and_year`:
the first candidate whose `year` equals the parsed target year. -/
def movieLoop (y : Int) : List MovieInfo → Option MovieInfo
  | [] => none
  | m :: rest => if m.year = y then some m else movieLoop y rest

/-- Outcome of a Python call that can end in an uncaught exception. -/
inductive PyResult (α : Type) where
  | ok (val : α)
  | raised (msg : String)
deriving DecidableEq, Repr

/-- `search_movie_by_title_and_year` of `trakt_api.py`: `int(movie_year)`
is evaluated inside the candidate loop, so with an empty candidate list it
is never reached and the function returns `None`; with candidates present
a non-numeric year raises `ValueError`, which the surrounding
`except requests.RequestException` does not catch. -/
def search_movie_by_title_and_year (cat : Catalog)
    (movie_title movie_year : String) : PyResult (Option MovieInfo) :=
  match cat.searchMovies movie_title with
  | [] => .ok none
  | m :: rest =>
    match pyIntS movie_year with
    | none => .raised "ValueError: invalid literal for int() with base 10"
    | some y => .ok (movieLoop y (m :: rest))

/-- One iteration of the `for short_episode in episode_titles` loop of
`get_trakt_episode_data`: the accumulator carries the appended ids, the
(re-assigned) `episode` variable and the printed failure messages. -/
def splitStep (cat : Catalog) (fz : String → String → Nat) (show_title : String)
    (acc : List Nat × Option EpisodeInfo × List String) (part : List Char) :
    List Nat × Option EpisodeInfo × List String :=
  match search_episode_by_title cat fz show_title ⟨pyStrip part⟩ with
  | some e => (acc.1 ++ [e.ids], some e, acc.2.2)
  | none => (acc.1, none, acc.2.2 ++ [failedTitleMsg ⟨pyStrip part⟩ show_title])

/-- The whole semicolon-fallback loop: after it, the `episode` component
holds the lookup result of the last part. -/
def splitLoop (cat : Catalog) (fz : String → String → Nat) (show_title : String)
    (parts : List (List Char)) : List Nat × Option EpisodeInfo × List String :=
  parts.foldl (splitStep cat fz show_title) ([], none, [])

/-- The tail of `get_trakt_episode_data` after its if/else block: the
trailing `if episode:` appends the `episode` variable once more whenever
it is truthy at that point; otherwise, when the episode title holds no
semicolon, a failure diagnostic is printed. -/
def finishStep (episode_title show_title : String) :
    List Nat × Option EpisodeInfo × List String → List Nat × List String
  | (lst, some e, logs) => (lst ++ [e.ids], logs)
  | (lst, none, logs) =>
    if episode_title.data.contains ';' then (lst, logs)
    else (lst, logs ++ [failedTitleMsg episode_title show_title])

/-- `get_trakt_episode_data` of `trakt_api.py`: the episode fallback chain.
Returns the `episodes_list` of appended id entries together with the
printed diagnostics, in order. The middle component fed to `finishStep`
is the `episode` variable at the end of the if/else block. -/
def get_trakt_episode_data (cat : Catalog) (fz : String → String → Nat)
    (show_title episode_title onscreen_value : String) :
    List Nat × List String :=
  if show_title ≠ "" ∧ (episode_title ≠ "" ∨ onscreen_value ≠ "") then
    finishStep episode_title show_title
      (if onscreen_value ≠ "" then
        match search_episode_by_onscreen_value cat show_title onscreen_value with
        | (some e, logs) => ([], some e, logs)
        | (none, logs) =>
          match search_episode_by_title cat fz show_title episode_title with
          | some e => ([e.ids], some e, logs)
          | none =>
            ([], none, logs ++ [onscreenNotFoundMsg onscreen_value show_title])
      else
        match search_episode_by_title cat fz show_title episode_title with
        | some e => ([], some e, [])
        | none =>
          if episode_title.data.contains ';' then
            splitLoop cat fz show_title (splitOnChar ';' episode_title.data)
          else ([], none, []))
  else
    ([], [emptyFieldsMsg show_title])

/-- Title search as claim C8's spec sentence words it: the same policy but
with the accepted show's seasons enumerated in ascending season-number
order rather than in catalog-returned order. -/
def searchEpisodeAscendingSpec (cat : Catalog) (fz : String → String → Nat)
    (show_title episode_title : String) : Option EpisodeInfo :=
  (cat.searchShows show_title).findSome? fun sh =>
    if 90 < fz (lowerS show_title) (lowerS sh.title) then
      ((cat.listSeasons sh.id).insertionSort (fun a b => a ≤ b)).findSome?
        fun season_number =>
          (cat.listEpisodes sh.id season_number).find? fun ep =>
            decide (90 < fz (lowerS episode_title) (lowerS ep.title))
    else none

/-- A concrete fuzzy matcher for the test catalogs: 100 for equal strings,
0 otherwise. -/
def exactScore (a b : String) : Nat := if a = b then 100 else 0

/-- Test catalog: show `Foo` (id 1) whose season/episode endpoint 404s,
with one season `1` holding the episode `Bar` (ids 42). -/
def catDup : Catalog where
  searchShows := fun q => if q = "Foo" then [⟨"Foo", 1⟩] else []
  searchMovies := fun _ => []
  listSeasons := fun i => if i = 1 then [1] else []
  listEpisodes := fun i sn => if i = 1 ∧ sn = 1 then [⟨"Bar", 42⟩] else []
  getEpisode := fun _ _ _ => none

/-- Test catalog: show `Foo` (id 1), one season `1` with the single
episode `Bar` (ids 5). -/
def catSemi : Catalog where
  searchShows := fun q => if q = "Foo" then [⟨"Foo", 1⟩] else []
  searchMovies := fun _ => []
  listSeasons := fun i => if i = 1 then [1] else []
  listEpisodes := fun i sn => if i = 1 ∧ sn = 1 then [⟨"Bar", 5⟩] else []
  getEpisode := fun _ _ _ => none

/-- Test catalog: two movies titled `Dune`, years 1984 (ids 100) and 2021
(ids 200). -/
def duneCat : Catalog where
  searchShows := fun _ => []
  searchMovies := fun q =>
    if q = "Dune" then [⟨"Dune", 1984, 100⟩, ⟨"Dune", 2021, 200⟩] else []
  listSeasons := fun _ => []
  listEpisodes := fun _ _ => []
  getEpisode := fun _ _ _ => none

/-- Test catalog: show `Foo` (id 1) whose seasons are returned in the
order `[2, 1]`; season 2 holds `Bar` (ids 7), season 1 holds `Bar`
(ids 3). -/
def catOrder : Catalog where
  searchShows := fun q => if q = "Foo" then [⟨"Foo", 1⟩] else []
  searchMovies := fun _ => []
  listSeasons := fun i => if i = 1 then [2, 1] else []
  listEpisodes := fun i sn =>
    if i = 1 ∧ sn = 2 then [⟨"Bar", 7⟩]
    else if i = 1 ∧ sn = 1 then [⟨"Bar", 3⟩] else []
  getEpisode := fun _ _ _ => none

/-- `List.find?` returns the head of the filtered list. -/
theorem find?_eq_head_filter {α : Type} (p : α → Bool) (l : List α) :
    l.find? p = (l.filter p).head? := by
  induction l with
  | nil => rfl
  | cons a t ih =>
    rw [List.find?_cons, List.filter_cons]
    cases h : p a
    · exact ih
    · rfl

/-- Claim C1 (the duplicate-append defect, evaluated): with an onscreen
value whose season/episode fetch 404s and a title lookup that finds the
episode with ids 42, the engine appends that one episode twice. -/
theorem C1_duplicate_entry :
    get_trakt_episode_data catDup exactScore "Foo" "Bar" "S01E01" =
      ([42, 42], []) := by decide

/-- Claim C3 (evaluated at the failing input): a non-numeric year with a
nonempty candidate list raises an uncaught `ValueError` instead of
returning `None` with a diagnostic. -/
theorem C3_nonnumeric_year_raises :
    search_movie_by_title_and_year duneCat "Dune" "20XX" =
      .raised "ValueError: invalid literal for int() with base 10" := by decide

/-- The candidate loop of the movie search is a `find?` on the year. -/
theorem movieLoop_eq_find (y : Int) (l : List MovieInfo) :
    movieLoop y l = l.find? fun m => m.year == y := by
  induction l with
  | nil => rfl
  | cons m rest ih =>
    rw [List.find?_cons]
    by_cases h : m.year = y
    · simp [movieLoop, h]
    · have hb : (m.year == y) = false := by simp [h]
      rw [hb]
      simpa [movieLoop, h] using ih

/-- Claim C4: whenever the year string parses to `y`, the movie search
returns the first candidate whose release year equals `y` exactly, and
`none` when no candidate's year matches or the search returns nothing. -/
theorem C4_exact_year (cat : Catalog) (movie_title movie_year : String)
    (y : Int) (hy : pyIntS movie_year = some y) :
    search_movie_by_title_and_year cat movie_title movie_year =
      .ok ((cat.searchMovies movie_title).find? fun m => m.year == y) := by
  unfold search_movie_by_title_and_year
  cases hm : cat.searchMovies movie_title with
  | nil => rfl
  | cons m rest =>
    simp only [hy, movieLoop_eq_find]

/-- Claim C4 at the spec's concrete input: `resolveMovie("Dune", "2021")`
against `[{Dune,1984,ids:100}, {Dune,2021,ids:200}]` returns ids 200 (the
exact-year candidate, not the first). -/
theorem C4_exact_year_witness :
    pyIntS "2021" = some 2021 ∧
      search_movie_by_title_and_year duneCat "Dune" "2021" =
        .ok (some ⟨"Dune", 2021, 200⟩) := by
  refine ⟨by decide, ?_⟩
  rw [C4_exact_year duneCat "Dune" "2021" 2021 (by decide)]
  decide

/-- Claim C9: with an empty show title, or with both the episode title
and the onscreen value empty, the engine returns the empty sequence and
exactly the one missing-field diagnostic, for every catalog and matcher
(so no catalog lookup can influence the result). -/
theorem C9_missing_fields (cat : Catalog) (fz : String → String → Nat)
    (show_title episode_title onscreen_value : String)
    (h : show_title = "" ∨ (episode_title = "" ∧ onscreen_value = "")) :
    get_trakt_episode_data cat fz show_title episode_title onscreen_value =
      ([], [emptyFieldsMsg show_title]) := by
  rcases h with h | ⟨h1, h2⟩
  · simp [get_trakt_episode_data, h]
  · simp [get_trakt_episode_data, h1, h2]

/-- Claim C9 at a concrete input: the empty show title short-circuits. -/
theorem C9_missing_fields_witness :
    get_trakt_episode_data catDup exactScore "" "Bar" "S01E01" =
      ([], [emptyFieldsMsg ""]) :=
  C9_missing_fields catDup exactScore "" "Bar" "S01E01" (Or.inl rfl)

/-- Claim C10: the classifier is total and returns `true` exactly when
some code entry has system `dd_progid` and a value whose first two
characters lowercase to `mv`; records with no code entries, or whose
values all have fewer than two characters, classify as Episode
(`false`) — the truncating slice never fails. -/
theorem C10_is_movie_total (p : Program) :
    (is_movie p = true ↔
      ∃ c ∈ p.episodeNum ++ p.episodenum,
        c.system = "dd_progid" ∧
          (c.value.data.take 2).map Char.toLower = ['m', 'v']) ∧
    (p.episodeNum = [] ∧ p.episodenum = [] → is_movie p = false) ∧
    ((∀ c ∈ p.episodeNum ++ p.episodenum, c.value.length < 2) →
      is_movie p = false) := by
  have hchar : is_movie p = true ↔
      ∃ c ∈ p.episodeNum ++ p.episodenum,
        c.system = "dd_progid" ∧
          (c.value.data.take 2).map Char.toLower = ['m', 'v'] := by
    simp only [is_movie, List.any_eq_true, Bool.and_eq_true, beq_iff_eq,
      startsMv]
  refine ⟨hchar, ?_, ?_⟩
  · rintro ⟨h1, h2⟩
    simp [is_movie, h1, h2]
  · intro hshort
    rw [Bool.eq_false_iff]
    intro htrue
    obtain ⟨c, hc, -, hmv⟩ := hchar.mp htrue
    have hlen := congrArg List.length hmv
    simp [List.length_map, List.length_take] at hlen
    have := hshort c hc
    omega

/-- The onscreen parse succeeds exactly when stripping the first character
and splitting on `E` yields exactly two `int()`-parseable parts. -/
theorem parseOnscreen_isSome (v : String) :
    (parseOnscreen v).isSome ↔
      ((splitOnChar 'E' (v.data.drop 1)).length = 2 ∧
        ∀ p ∈ splitOnChar 'E' (v.data.drop 1), (pyInt p).isSome) := by
  unfold parseOnscreen
  rcases h : splitOnChar 'E' (v.data.drop 1) with _ | ⟨a, _ | ⟨b, _ | ⟨c, t⟩⟩⟩
  · simp
  · simp
  · cases ha : pyInt a <;> cases hb : pyInt b <;> simp [ha, hb]
  · simp

/-- Claim C6: the parser strips the first character whatever it is, splits
the remainder on `E`, succeeds exactly when that yields two
integer-parseable parts, and maps `X1E2` to season 1, episode 2 and
`S03E07` to season 3, episode 7. -/
theorem C6_parse_rule :
    (∀ (c c' : Char) (rest : List Char),
        parseOnscreen ⟨c :: rest⟩ = parseOnscreen ⟨c' :: rest⟩) ∧
    (∀ v : String, (parseOnscreen v).isSome ↔
      ((splitOnChar 'E' (v.data.drop 1)).length = 2 ∧
        ∀ p ∈ splitOnChar 'E' (v.data.drop 1), (pyInt p).isSome)) ∧
    parseOnscreen "X1E2" = some ⟨1, 2⟩ ∧
    parseOnscreen "S03E07" = some ⟨3, 7⟩ :=
  ⟨fun _ _ _ => rfl, parseOnscreen_isSome, by decide, by decide⟩

/-- Claim C5: when the onscreen code parses but the catalog answers the
season/episode fetch with 404, step 1 yields no match and no error, and
the whole resolution is decided by the step-2 title lookup. -/
theorem C5_notfound_falls_through (cat : Catalog) (fz : String → String → Nat)
    (show_title episode_title onscreen_value : String) (se : SeasonEpisode)
    (sh : ShowInfo) (tl : List ShowInfo)
    (hp : parseOnscreen onscreen_value = some se)
    (hs : cat.searchShows show_title = sh :: tl)
    (h404 : cat.getEpisode sh.id se.season se.episode = none)
    (hst : show_title ≠ "") (hov : onscreen_value ≠ "") :
    search_episode_by_onscreen_value cat show_title onscreen_value =
      (none, []) ∧
    get_trakt_episode_data cat fz show_title episode_title onscreen_value =
      (match search_episode_by_title cat fz show_title episode_title with
       | some e => ([e.ids, e.ids], [])
       | none => ([], onscreenNotFoundMsg onscreen_value show_title ::
           (if episode_title.data.contains ';' then []
            else [failedTitleMsg episode_title show_title]))) := by
  have h1 : search_episode_by_onscreen_value cat show_title onscreen_value =
      (none, []) := by
    unfold search_episode_by_onscreen_value get_first_show_id
    rw [hp, hs]
    simp [h404]
  refine ⟨h1, ?_⟩
  unfold get_trakt_episode_data
  rw [if_pos ⟨hst, Or.inr hov⟩, if_pos hov, h1]
  cases h2 : search_episode_by_title cat fz show_title episode_title with
  | some e => simp [finishStep]
  | none =>
    cases hc : episode_title.data.contains ';'
    · have hc2 : ';' ∉ episode_title.data := by simpa using hc
      simp [finishStep, hc2]
    · have hc2 : ';' ∈ episode_title.data := by simpa using hc
      simp [finishStep, hc2]

/-- Claim C5 at a concrete input: `S01E01` parses, the fetch 404s, and the
step-2 lookup resolves `Bar` (ids 42), which alone feeds the output. -/
theorem C5_notfound_falls_through_witness :
    search_episode_by_onscreen_value catDup "Foo" "S01E01" = (none, []) ∧
    get_trakt_episode_data catDup exactScore "Foo" "Bar" "S01E01" =
      (match search_episode_by_title catDup exactScore "Foo" "Bar" with
       | some e => ([e.ids, e.ids], [])
       | none => ([], onscreenNotFoundMsg "S01E01" "Foo" ::
           (if ("Bar").data.contains ';' then []
            else [failedTitleMsg "Bar" "Foo"]))) :=
  C5_notfound_falls_through catDup exactScore "Foo" "Bar" "S01E01" ⟨1, 1⟩
    ⟨"Foo", 1⟩ [] (by decide) (by decide) (by decide) (by decide) (by decide)

/-- One loop iteration never drops an already-appended id. -/
theorem splitStep_sub (cat : Catalog) (fz : String → String → Nat)
    (show_title : String) (acc : List Nat × Option EpisodeInfo × List String)
    (part : List Char) :
    ∀ x ∈ acc.1, x ∈ (splitStep cat fz show_title acc part).1 := by
  intro x hx
  unfold splitStep
  cases h : search_episode_by_title cat fz show_title ⟨pyStrip part⟩ <;>
    simp [hx]

/-- The whole loop never drops an already-appended id. -/
theorem splitFold_sub (cat : Catalog) (fz : String → String → Nat)
    (show_title : String) (parts : List (List Char)) :
    ∀ init, ∀ x ∈ init.1,
      x ∈ (parts.foldl (splitStep cat fz show_title) init).1 := by
  induction parts with
  | nil => intro init x hx; exact hx
  | cons p ps ih =>
    intro init x hx
    rw [List.foldl_cons]
    exact ih _ x (splitStep_sub cat fz show_title init p x hx)

/-- Every part whose trimmed title lookup succeeds contributes its ids to
the loop's accumulated list. -/
theorem splitFold_mem (cat : Catalog) (fz : String → String → Nat)
    (show_title : String) (part : List Char) (e : EpisodeInfo)
    (he : search_episode_by_title cat fz show_title ⟨pyStrip part⟩ = some e) :
    ∀ (parts : List (List Char))
      (init : List Nat × Option EpisodeInfo × List String), part ∈ parts →
        e.ids ∈ (parts.foldl (splitStep cat fz show_title) init).1 := by
  intro parts
  induction parts with
  | nil => intro init h; cases h
  | cons p ps ih =>
    intro init hmem
    rw [List.foldl_cons]
    rcases List.mem_cons.mp hmem with rfl | hmem2
    · apply splitFold_sub
      unfold splitStep
      rw [he]
      simp
    · exact ih _ hmem2

/-- Claim C2 as stated is false: with an onscreen value present (here one
that does not even parse) and a failing step-2 lookup on the semicolon
title `Bar; Baz`, the engine returns no episodes although the title
lookup on the split part `Bar` succeeds (ids 5). -/
theorem C2_counterexample :
    search_episode_by_title catSemi exactScore "Foo" "Bar" =
      some ⟨"Bar", 5⟩ ∧
    get_trakt_episode_data catSemi exactScore "Foo" "Bar; Baz" "bad" =
      ([], [invalidOnscreenMsg "bad", onscreenNotFoundMsg "bad" "Foo"]) ∧
    (5 : Nat) ∉
      (get_trakt_episode_data catSemi exactScore "Foo" "Bar; Baz" "bad").1 := by
  decide

/-- Claim C2 amended: when NO onscreen value is present, the step-2 title
lookup finds nothing and the episode title contains `;`, the engine splits
the title on `;`, trims each part, looks each part up independently, and
every successful match contributes its ids to the returned sequence. -/
theorem C2_split_collects (cat : Catalog) (fz : String → String → Nat)
    (show_title episode_title : String)
    (hst : show_title ≠ "") (het : episode_title ≠ "")
    (hmiss : search_episode_by_title cat fz show_title episode_title = none)
    (hsemi : episode_title.data.contains ';' = true) :
    ∀ part ∈ splitOnChar ';' episode_title.data, ∀ e : EpisodeInfo,
      search_episode_by_title cat fz show_title ⟨pyStrip part⟩ = some e →
        e.ids ∈ (get_trakt_episode_data cat fz show_title episode_title "").1 := by
  intro part hmem e he
  have hm : e.ids ∈
      (splitLoop cat fz show_title (splitOnChar ';' episode_title.data)).1 :=
    splitFold_mem cat fz show_title part e he _ ([], none, []) hmem
  unfold get_trakt_episode_data
  rw [if_pos ⟨hst, Or.inl het⟩, if_neg (by simp), hmiss, if_pos hsemi]
  rcases hsl : splitLoop cat fz show_title (splitOnChar ';' episode_title.data)
    with ⟨lst, ep, logs⟩
  rw [hsl] at hm
  have hsemi2 : ';' ∈ episode_title.data := by simpa using hsemi
  cases ep
  · simpa [finishStep, hsemi2] using hm
  · simp [finishStep]
    exact Or.inl hm

/-- Claim C2's amended form at a concrete input: with no onscreen value,
`Bar; Baz` failing as a whole, and the part `Bar` resolving to ids 5,
the output contains 5. -/
theorem C2_split_collects_witness :
    (5 : Nat) ∈ (get_trakt_episode_data catSemi exactScore "Foo" "Bar; Baz" "").1 :=
  C2_split_collects catSemi exactScore "Foo" "Bar; Baz" (by decide) (by decide)
    (by decide) (by decide) ("Bar".data) (by decide) ⟨"Bar", 5⟩ (by decide)

/-- Characters of a split part are characters of the split input. -/
theorem mem_of_mem_splitOnChar (sep c : Char) :
    ∀ (l : List Char) (p : List Char),
      p ∈ splitOnChar sep l → c ∈ p → c ∈ l := by
  intro l
  induction l with
  | nil =>
    intro p hp hc
    simp [splitOnChar] at hp
    subst hp
    cases hc
  | cons a t ih =>
    intro p hp hc
    by_cases ha : a = sep
    · rw [splitOnChar, if_pos ha] at hp
      rcases List.mem_cons.mp hp with rfl | hp2
      · cases hc
      · exact List.mem_cons_of_mem a (ih p hp2 hc)
    · rw [splitOnChar, if_neg ha] at hp
      cases hsp : splitOnChar sep t with
      | nil =>
        rw [hsp] at hp
        rcases List.mem_singleton.mp hp with rfl
        rcases List.mem_singleton.mp hc with rfl
        exact List.mem_cons_self _ _
      | cons h0 t0 =>
        rw [hsp] at hp
        rcases List.mem_cons.mp hp with rfl | hp2
        · rcases List.mem_cons.mp hc with rfl | hc2
          · exact List.mem_cons_self _ _
          · refine List.mem_cons_of_mem a (ih h0 ?_ hc2)
            rw [hsp]
            exact List.mem_cons_self _ _
        · refine List.mem_cons_of_mem a (ih p ?_ hc)
          rw [hsp]
          exact List.mem_cons_of_mem _ hp2

/-- Stripping whitespace keeps only characters of the original. -/
theorem pyStrip_subset (l : List Char) : ∀ c ∈ pyStrip l, c ∈ l := by
  intro c hc
  unfold pyStrip at hc
  rw [List.mem_reverse] at hc
  have h1 := (List.dropWhile_sublist (l := (l.dropWhile pySpace).reverse)
    pySpace).subset hc
  rw [List.mem_reverse] at h1
  exact (List.dropWhile_sublist pySpace).subset h1

/-- `int()` on text holding no minus sign is non-negative. -/
theorem pyInt_nonneg (l : List Char) (n : Int) (hm : '-' ∉ l)
    (h : pyInt l = some n) : 0 ≤ n := by
  unfold pyInt at h
  split at h
  · cases h
  next c rest hs =>
    split at h
    · obtain ⟨m, -, rfl⟩ := Option.map_eq_some'.mp h
      exact Int.ofNat_nonneg m
    · split at h
      next hminus =>
        exact absurd (pyStrip_subset l '-'
          (by rw [hs, ← hminus]; exact List.mem_cons_self _ _)) hm
      next =>
        obtain ⟨m, -, rfl⟩ := Option.map_eq_some'.mp h
        exact Int.ofNat_nonneg m

/-- Claim C7 as stated is false: Python `int()` accepts signs, so the
onscreen value `X-1E2` parses successfully to season `-1`. -/
theorem C7_counterexample :
    parseOnscreen "X-1E2" = some ⟨-1, 2⟩ ∧ (-1 : Int) < 0 := by decide

/-- Claim C7 amended: every `SeasonEpisode` a successful parse produces
from an onscreen value holding no `-` character has a non-negative season
and episode. -/
theorem C7_nonneg (v : String) (se : SeasonEpisode)
    (hminus : v.data.contains '-' = false)
    (h : parseOnscreen v = some se) :
    0 ≤ se.season ∧ 0 ≤ se.episode := by
  have hnm : '-' ∉ v.data := by simpa using hminus
  unfold parseOnscreen at h
  split at h
  next a b hsp =>
    split at h
    next s e ha hb =>
      have hse : se = ⟨s, e⟩ := (Option.some_inj.mp h).symm
      subst hse
      have hna : '-' ∉ a := fun hc => hnm
        (List.drop_subset 1 v.data
          (mem_of_mem_splitOnChar 'E' '-' _ a (by rw [hsp]; simp) hc))
      have hnb : '-' ∉ b := fun hc => hnm
        (List.drop_subset 1 v.data
          (mem_of_mem_splitOnChar 'E' '-' _ b (by rw [hsp]; simp) hc))
      exact ⟨pyInt_nonneg a s hna ha, pyInt_nonneg b e hnb hb⟩
    next => cases h
  next => cases h

/-- Claim C7's amended form at a concrete input: `S03E07` holds no `-`
and parses to the non-negative pair (3, 7). -/
theorem C7_nonneg_witness :
    0 ≤ (SeasonEpisode.mk 3 7).season ∧ 0 ≤ (SeasonEpisode.mk 3 7).episode :=
  C7_nonneg "S03E07" ⟨3, 7⟩ (by decide) (by decide)

/-- `List.findSome?` is the head of the flattened successes. -/
theorem findSome?_eq_head_flat {α β : Type} (f : α → Option β) (l : List α) :
    l.findSome? f = (l.flatMap fun a => (f a).toList).head? := by
  induction l with
  | nil => rfl
  | cons a t ih =>
    rw [List.findSome?_cons, List.flatMap_cons]
    cases h : f a
    · simpa using ih
    · simp

/-- Scanning seasons for the first episode match is the head of all the
matches of all seasons, flattened in enumeration order. -/
theorem seasonScan_eq (eps : Int → List EpisodeInfo) (p : EpisodeInfo → Bool)
    (seasons : List Int) :
    (seasons.findSome? fun sn => (eps sn).find? p) =
      (seasons.flatMap fun sn => (eps sn).filter p).head? := by
  induction seasons with
  | nil => rfl
  | cons sn rest ih =>
    rw [List.findSome?_cons, List.flatMap_cons, List.head?_append,
      find?_eq_head_filter]
    cases hf : ((eps sn).filter p).head?
    · simpa [hf] using ih
    · simp [hf]

/-- Claim C8 as stated is false on catalog-order grounds: with seasons
returned as `[2, 1]`, the code takes season 2's `Bar` (ids 7) while the
spec's ascending enumeration would take season 1's `Bar` (ids 3). -/
theorem C8_counterexample :
    search_episode_by_title catOrder exactScore "Foo" "Bar" =
      some ⟨"Bar", 7⟩ ∧
    searchEpisodeAscendingSpec catOrder exactScore "Foo" "Bar" =
      some ⟨"Bar", 3⟩ ∧
    some (EpisodeInfo.mk "Bar" 7) ≠ some (EpisodeInfo.mk "Bar" 3) := by
  decide

/-- Claim C8 amended: the title lookup accepts a candidate show only when
its fuzzy score strictly exceeds 90, walks that show's seasons in
catalog-returned order and each season's episodes in catalog-returned
order, and returns the first episode scoring strictly above 90 — the head
of the flattened match list, not a global best scan. -/
theorem C8_first_match (cat : Catalog) (fz : String → String → Nat)
    (show_title episode_title : String) :
    search_episode_by_title cat fz show_title episode_title =
      (((cat.searchShows show_title).filter fun sh =>
          decide (90 < fz (lowerS show_title) (lowerS sh.title))).flatMap
        fun sh =>
          (cat.listSeasons sh.id).flatMap fun sn =>
            (cat.listEpisodes sh.id sn).filter fun ep =>
              decide (90 < fz (lowerS episode_title) (lowerS ep.title))).head? := by
  unfold search_episode_by_title
  induction cat.searchShows show_title with
  | nil => rfl
  | cons sh rest ih =>
    rw [List.findSome?_cons, List.filter_cons]
    by_cases hacc : 90 < fz (lowerS show_title) (lowerS sh.title)
    · rw [if_pos hacc, decide_eq_true hacc, if_pos rfl, List.flatMap_cons,
        List.head?_append,
        seasonScan_eq (fun sn => cat.listEpisodes sh.id sn)
          (fun ep => decide (90 < fz (lowerS episode_title) (lowerS ep.title)))
          (cat.listSeasons sh.id)]
      cases hin : ((cat.listSeasons sh.id).flatMap fun sn =>
          (cat.listEpisodes sh.id sn).filter fun ep =>
            decide (90 < fz (lowerS episode_title) (lowerS ep.title))).head?
      · simpa [hin] using ih
      · simp [hin]
    · rw [if_neg hacc]
      have hd : decide (90 < fz (lowerS show_title) (lowerS sh.title)) = false :=
        decide_eq_false hacc
      rw [hd, if_neg (by simp)]
      exact ih
